import Mathlib

/-!
Verification of the Outlook app module (source/appModules/outlook.py).

Shallow embedding conventions:
* Remote COM property reads that may raise are modelled as `Option` values
  (`none` means the read raised and the call site substitutes its default).
* The gettext translation function is the identity, so translated format
  strings are modelled as plain string concatenations.
* Locale date and time formatting (GetDateFormatEx, GetTimeFormatEx) is an
  external interface; it is modelled as an abstract pair of functions.
-/

/-- Message classes whose names are assumed to consist of only one word and
which are therefore not announced for an item (outlook.py lines 34-38). -/
def silentMessageClasses : List String :=
  ["IPM.Appointment", "IPM.Contact", "IPM.Note"]

/-- The number of seconds in a day (outlook.py line 42). -/
def SECONDS_PER_DAY : Int := 86400

/-- The flag-icon label lookup (outlook.py lines 44-63): entries 1 to 6 only. -/
def oleFlagIconLabels : Nat → Option String
  | 1 => some ("purple flag")
  | 2 => some ("Orange flag")
  | 3 => some ("Green flag")
  | 4 => some ("Yellow flag")
  | 5 => some ("Blue flag")
  | 6 => some ("Red flag")
  | _ => none

/-- The importance label lookup (outlook.py lines 65-70): high is 2, low is 0,
normal importance 1 has no label. -/
def importanceLabels : Nat → Option String
  | 2 => some ("high importance")
  | 0 => some ("low importance")
  | _ => none

/-- The fields of a received message read by getReceivedMessageString.
`attachmentsCount` is the count of the attachments collection. -/
structure ReceivedMessage where
  senderName : String
  subject : String
  receivedTime : String
  unread : Bool
  attachmentsCount : Nat

/-- Embedding of getReceivedMessageString (outlook.py lines 75-89): join the
sender, subject and received segments with a comma, then prepend the unread
token when the message is unread, then prepend the attachment token when the
attachment count is positive. -/
def getReceivedMessageString (obj : ReceivedMessage) : String :=
  let nameList : List String :=
    [obj.senderName, ("subject: ") ++ obj.subject, ("received: ") ++ obj.receivedTime]
  let text := String.intercalate (", ") nameList
  let text := if obj.unread then ("unread") ++ (" ") ++ text else text
  let text := if obj.attachmentsCount > 0 then ("attachment") ++ (" ") ++ text else text
  text

/-- The example record from the spec: unread, one attachment. -/
def exampleReceivedMessage : ReceivedMessage :=
  { senderName := "Alice", subject := "Hi", receivedTime := "2024-01-01T10:00",
    unread := true, attachmentsCount := 1 }

theorem intercalate_three (a b c : String) :
    String.intercalate (", ") [a, b, c] = a ++ (", ") ++ b ++ (", ") ++ c := rfl

/-- Claim C1 counterexample: on the example input from the claim the function
returns the attachment token before the unread token, not the claimed order
with the unread token first. -/
theorem C1_counterexample :
    getReceivedMessageString exampleReceivedMessage =
      "attachment unread Alice, subject: Hi, received: 2024-01-01T10:00" ∧
    getReceivedMessageString exampleReceivedMessage ≠
      "unread attachment Alice, subject: Hi, received: 2024-01-01T10:00" := by
  constructor
  · rfl
  · decide

/-- Claim C1 (amended): each token appears exactly when its flag holds, but
when both are present the attachment token comes first, because the unread
token is prepended before the attachment token is prepended. -/
theorem C1_received_message_format (obj : ReceivedMessage) :
    getReceivedMessageString obj =
      (if obj.attachmentsCount > 0 then ("attachment ") else ("")) ++
      (if obj.unread then ("unread ") else ("")) ++
      (obj.senderName ++ (", ") ++ (("subject: ") ++ obj.subject) ++ (", ") ++
        (("received: ") ++ obj.receivedTime)) := by
  unfold getReceivedMessageString
  rcases obj with ⟨sn, sj, rt, ur, ac⟩
  simp only [intercalate_three]
  by_cases h : ac > 0 <;> cases ur <;>
    simp [h, String.append_assoc, String.empty_append] <;>
    rw [← String.append_assoc] <;> congr 1

/-- The mutable state relevant to AppModule._get_nativeOm (outlook.py lines
107-135): whether _registerCOMWithFocusJuggle has already run this session
(_hasTriedoutlookAppSwitch), and the instance attribute self.nativeOm once it
has been assigned, which from then on shadows the property getter.  The inner
Option is the stored handle value (none models Python None). -/
structure OmState where
  hasTried : Bool
  cachedNativeOm : Option (Option Nat)
  deriving DecidableEq, Repr

/-- What one access to the nativeOm property produces. -/
structure OmCallResult where
  result : Option Nat
  state : OmState
  dialogShown : Bool
  errorLogged : Bool
  deriving DecidableEq, Repr

/-- The session state before the first access. -/
def initialOmState : OmState := { hasTried := false, cachedNativeOm := none }

/-- Embedding of AppModule._get_nativeOm (outlook.py lines 124-135).
`attempt` is the outcome of comHelper.getActiveObject: none means the call
raised (COMError, WindowsError or RuntimeError).  When self.nativeOm has been
assigned, the instance attribute shadows the property getter, so the access
returns the stored value with no side effects.  Otherwise: on a failed
attempt with hasTried set, the failure is logged at error severity; on a
failed attempt with hasTried unset, _registerCOMWithFocusJuggle shows the
waiting dialog, sets hasTried, and the getter returns None without assigning
self.nativeOm; in every other case the getter assigns self.nativeOm and
returns it. -/
def getNativeOm (s : OmState) (attempt : Option Nat) : OmCallResult :=
  match s.cachedNativeOm with
  | some v => { result := v, state := s, dialogShown := false, errorLogged := false }
  | none =>
    let errorLogged := attempt.isNone && s.hasTried
    match attempt with
    | none =>
      if ¬ s.hasTried then
        { result := none, state := { s with hasTried := true },
          dialogShown := true, errorLogged := errorLogged }
      else
        { result := none, state := { s with cachedNativeOm := some none },
          dialogShown := false, errorLogged := errorLogged }
    | some om =>
      { result := some om, state := { s with cachedNativeOm := some (some om) },
        dialogShown := false, errorLogged := errorLogged }

/-- Claim C2: in a session, the first failed acquisition shows the waiting
dialog exactly once, logs nothing, and returns None without assigning the
cache; a second failed acquisition logs once at error severity, shows no
dialog, and permanently caches None; afterwards every access returns None
with no dialog and no log, and the state never changes again. -/
theorem C2_nativeOm_acquisition (a : Option Nat) :
    (getNativeOm initialOmState none).result = none ∧
    (getNativeOm initialOmState none).dialogShown = true ∧
    (getNativeOm initialOmState none).errorLogged = false ∧
    (getNativeOm initialOmState none).state.cachedNativeOm = none ∧
    (getNativeOm (getNativeOm initialOmState none).state none).result = none ∧
    (getNativeOm (getNativeOm initialOmState none).state none).dialogShown = false ∧
    (getNativeOm (getNativeOm initialOmState none).state none).errorLogged = true ∧
    (getNativeOm (getNativeOm initialOmState none).state none).state.cachedNativeOm
      = some none ∧
    (∀ s : OmState, s.cachedNativeOm = some none →
      getNativeOm s a =
        { result := none, state := s, dialogShown := false, errorLogged := false }) := by
  refine ⟨rfl, rfl, rfl, rfl, rfl, rfl, rfl, rfl, ?_⟩
  intro s hs
  simp [getNativeOm, hs]

/-- Witness instantiating the cached-state clause of the C2 theorem. -/
theorem C2_nativeOm_acquisition_witness :
    getNativeOm { hasTried := true, cachedNativeOm := some none } (some 7) =
      { result := none, state := { hasTried := true, cachedNativeOm := some none },
        dialogShown := false, errorLogged := false } :=
  (C2_nativeOm_acquisition (some 7)).2.2.2.2.2.2.2.2
    { hasTried := true, cachedNativeOm := some none } rfl

/-- A Python datetime value as used by CalendarView: the proleptic ordinal of
its calendar date plus the time of day.  The date method returns the date
component, and subtracting two dates yields a timedelta of whole days. -/
structure PyDateTime where
  date : Int
  hour : Nat
  minute : Nat
  second : Nat
  microsecond : Nat
  deriving DecidableEq, Repr

/-- The elapsed microseconds from the start timestamp to the end timestamp,
the quantity a full timestamp subtraction would measure. -/
def elapsedMicroseconds (s e : PyDateTime) : Int :=
  ((e.date - s.date) * 86400
    + ((e.hour : Int) * 3600 + (e.minute : Int) * 60 + (e.second : Int))
    - ((s.hour : Int) * 3600 + (s.minute : Int) * 60 + (s.second : Int))) * 1000000
    + ((e.microsecond : Int) - (s.microsecond : Int))

/-- The external locale formatting interface used by CalendarView:
GetTimeFormatEx with TIME_NOSECONDS and GetDateFormatEx with DATE_LONGDATE. -/
structure Fmt where
  timeFmt : PyDateTime → String
  dateFmt : PyDateTime → String

/-- The two textual shapes CalendarView._generateTimeRangeText can return:
the all-day shape carrying one date text, or the range shape carrying a start
text and an end text. -/
inductive TimeRangeText where
  | allDay (dateText : String)
  | range (startText endText : String)
  deriving DecidableEq, Repr

/-- Rendering of the two translated format strings of _generateTimeRangeText:
the all-day message and the start-to-end message. -/
def TimeRangeText.render : TimeRangeText → String
  | TimeRangeText.allDay d => d ++ (" (all day)")
  | TimeRangeText.range s e => s ++ (" to ") ++ e

/-- Embedding of CalendarView._generateTimeRangeText (outlook.py lines
363-380), split into the shape computation and the final string rendering.
`lastStartDate` is the class-level CalendarView._lastStartDate cell before
the call; the second component of the result is that cell after the call.
The start text receives the long-date text in front exactly when the cell is
unset, or holds a different date than the start date, or the end date differs
from the start date; the all-day shape is produced exactly when the end date
differs from the start date, the start time of day is zero in hours, minutes
and seconds, and the difference of the two calendar dates measures one whole
day. -/
def generateTimeRangeTextCore (fmt : Fmt) (lastStartDate : Option Int)
    (startTime endTime : PyDateTime) : TimeRangeText × Option Int :=
  let startText := fmt.timeFmt startTime
  let endText := fmt.timeFmt endTime
  let startDate := startTime.date
  let endDate := endTime.date
  let startDateText := fmt.dateFmt startTime
  let startText :=
    if lastStartDate = none ∨ lastStartDate ≠ some startDate ∨ endDate ≠ startDate then
      startDateText ++ (" ") ++ startText
    else startText
  let newLast : Option Int := some startDate
  if endDate ≠ startDate then
    if startTime.hour = 0 ∧ startTime.minute = 0 ∧ startTime.second = 0 ∧
        (endDate - startDate) * 86400 = SECONDS_PER_DAY then
      (TimeRangeText.allDay startDateText, newLast)
    else
      (TimeRangeText.range startText (fmt.dateFmt endTime ++ (" ") ++ endText), newLast)
  else
    (TimeRangeText.range startText endText, newLast)

/-- The string-valued _generateTimeRangeText: the rendered shape plus the
updated CalendarView._lastStartDate cell. -/
def generateTimeRangeText (fmt : Fmt) (lastStartDate : Option Int)
    (startTime endTime : PyDateTime) : String × Option Int :=
  let r := generateTimeRangeTextCore fmt lastStartDate startTime endTime
  (r.1.render, r.2)

/-- A concrete formatting interface used for witnesses: both formatters are
fully evaluable. -/
def exFmt : Fmt :=
  { timeFmt := fun t => ("T") ++ toString t.hour ++ (".") ++ toString t.minute,
    dateFmt := fun t => ("D") ++ toString t.date }

/-- Claim C3 counterexample: a slot starting at midnight of day 0 and ending
at five in the morning of day 1 spans 104400 seconds, not 86400, yet the
function still renders the all-day shape, because the code compares the two
calendar dates rather than the two timestamps. -/
theorem C3_counterexample :
    (generateTimeRangeText exFmt none
        { date := 0, hour := 0, minute := 0, second := 0, microsecond := 0 }
        { date := 1, hour := 5, minute := 0, second := 0, microsecond := 0 }).1
      = ("D0 (all day)") ∧
    elapsedMicroseconds
        { date := 0, hour := 0, minute := 0, second := 0, microsecond := 0 }
        { date := 1, hour := 5, minute := 0, second := 0, microsecond := 0 }
      ≠ 86400 * 1000000 := by
  constructor
  · rfl
  · decide

/-- Claim C3 (amended): the all-day shape is produced exactly when the start
time of day is zero in hours, minutes and seconds and the end calendar date
is one whole day after the start calendar date (rather than the full end
minus start timestamp difference being 86400 seconds); in that case the
rendered string is the long-date text of the start followed by the all-day
suffix. -/
theorem C3_allday_rendering (fmt : Fmt) (last : Option Int) (s e : PyDateTime) :
    ((generateTimeRangeTextCore fmt last s e).1 = TimeRangeText.allDay (fmt.dateFmt s)
      ↔ (s.hour = 0 ∧ s.minute = 0 ∧ s.second = 0 ∧ e.date - s.date = 1)) ∧
    ((s.hour = 0 ∧ s.minute = 0 ∧ s.second = 0 ∧ e.date - s.date = 1) →
      (generateTimeRangeText fmt last s e).1 = fmt.dateFmt s ++ (" (all day)")) := by
  constructor
  · by_cases hcond : s.hour = 0 ∧ s.minute = 0 ∧ s.second = 0 ∧ e.date - s.date = 1
    · constructor
      · intro _
        exact hcond
      · intro _
        have hne : e.date ≠ s.date := by omega
        have hguard : s.hour = 0 ∧ s.minute = 0 ∧ s.second = 0 ∧
            (e.date - s.date) * 86400 = SECONDS_PER_DAY := by
          simp only [SECONDS_PER_DAY]
          refine ⟨hcond.1, hcond.2.1, hcond.2.2.1, ?_⟩
          omega
        simp only [generateTimeRangeTextCore]
        rw [if_pos hne, if_pos hguard]
    · have hguard : ¬ (s.hour = 0 ∧ s.minute = 0 ∧ s.second = 0 ∧
          (e.date - s.date) * 86400 = SECONDS_PER_DAY) := by
        simp only [SECONDS_PER_DAY]
        omega
      simp only [generateTimeRangeTextCore]
      by_cases hne : e.date ≠ s.date
      · rw [if_pos hne, if_neg hguard]
        simp [hcond]
      · rw [if_neg hne]
        simp [hcond]
  · intro hc
    have hne : e.date ≠ s.date := by omega
    have hguard : s.hour = 0 ∧ s.minute = 0 ∧ s.second = 0 ∧
        (e.date - s.date) * 86400 = SECONDS_PER_DAY := by
      simp only [SECONDS_PER_DAY]
      refine ⟨hc.1, hc.2.1, hc.2.2.1, ?_⟩
      omega
    simp only [generateTimeRangeText, generateTimeRangeTextCore]
    rw [if_pos hne, if_pos hguard]
    rfl

/-- Witness instantiating the all-day clause of the C3 theorem on the slot
from midnight of day 0 to midnight of day 1. -/
theorem C3_allday_rendering_witness :
    (generateTimeRangeText exFmt none
        { date := 0, hour := 0, minute := 0, second := 0, microsecond := 0 }
        { date := 1, hour := 0, minute := 0, second := 0, microsecond := 0 }).1
      = exFmt.dateFmt { date := 0, hour := 0, minute := 0, second := 0, microsecond := 0 }
        ++ (" (all day)") :=
  (C3_allday_rendering exFmt none
      { date := 0, hour := 0, minute := 0, second := 0, microsecond := 0 }
      { date := 1, hour := 0, minute := 0, second := 0, microsecond := 0 }).2
    (by decide)

/-- Claim C4: outside the all-day case the function renders the range shape;
the start text omits the long-date part exactly when the shared last
announced date cell holds the start date and the end date equals the start
date, and the end text carries the long-date part exactly when the end date
differs from the start date.  With an unset cell the start date is always
included. -/
theorem C4_range_date_suppression (fmt : Fmt) (last : Option Int) (s e : PyDateTime)
    (h : ¬ (s.hour = 0 ∧ s.minute = 0 ∧ s.second = 0 ∧ e.date - s.date = 1)) :
    (generateTimeRangeTextCore fmt last s e).1 =
      TimeRangeText.range
        (if last = some s.date ∧ e.date = s.date then fmt.timeFmt s
         else fmt.dateFmt s ++ (" ") ++ fmt.timeFmt s)
        (if e.date = s.date then fmt.timeFmt e
         else fmt.dateFmt e ++ (" ") ++ fmt.timeFmt e) ∧
    (generateTimeRangeText fmt last s e).1 =
      (if last = some s.date ∧ e.date = s.date then fmt.timeFmt s
       else fmt.dateFmt s ++ (" ") ++ fmt.timeFmt s) ++ (" to ") ++
      (if e.date = s.date then fmt.timeFmt e
       else fmt.dateFmt e ++ (" ") ++ fmt.timeFmt e) := by
  have hmain : (generateTimeRangeTextCore fmt last s e).1 =
      TimeRangeText.range
        (if last = some s.date ∧ e.date = s.date then fmt.timeFmt s
         else fmt.dateFmt s ++ (" ") ++ fmt.timeFmt s)
        (if e.date = s.date then fmt.timeFmt e
         else fmt.dateFmt e ++ (" ") ++ fmt.timeFmt e) := by
    by_cases heq : e.date = s.date
    · have hne : ¬ e.date ≠ s.date := by simp [heq]
      simp only [generateTimeRangeTextCore]
      rw [if_neg hne]
      by_cases hl : last = some s.date
      · have hA : ¬ (last = none ∨ last ≠ some s.date ∨ e.date ≠ s.date) := by
          simp [hl, heq]
        rw [if_neg hA, if_pos ⟨hl, heq⟩, if_pos heq]
      · have hA : last = none ∨ last ≠ some s.date ∨ e.date ≠ s.date :=
          Or.inr (Or.inl hl)
        rw [if_pos hA, if_neg (fun hc => hl hc.1), if_pos heq]
    · have hguard : ¬ (s.hour = 0 ∧ s.minute = 0 ∧ s.second = 0 ∧
          (e.date - s.date) * 86400 = SECONDS_PER_DAY) := by
        simp only [SECONDS_PER_DAY]
        omega
      simp only [generateTimeRangeTextCore]
      have hA : last = none ∨ last ≠ some s.date ∨ e.date ≠ s.date :=
        Or.inr (Or.inr heq)
      rw [if_pos heq, if_neg hguard, if_pos hA, if_neg (fun hc => heq hc.2), if_neg heq]
  refine ⟨hmain, ?_⟩
  simp only [generateTimeRangeText]
  rw [hmain]
  rfl

/-- Witness for the C4 theorem: first announcement on a same-day slot, so the
start text keeps its long-date part. -/
theorem C4_range_date_suppression_witness :
    (generateTimeRangeTextCore exFmt none
        { date := 5, hour := 10, minute := 30, second := 0, microsecond := 0 }
        { date := 5, hour := 11, minute := 0, second := 0, microsecond := 0 }).1 =
      TimeRangeText.range
        (exFmt.dateFmt { date := 5, hour := 10, minute := 30, second := 0, microsecond := 0 }
          ++ (" ") ++
          exFmt.timeFmt { date := 5, hour := 10, minute := 30, second := 0, microsecond := 0 })
        (exFmt.timeFmt { date := 5, hour := 11, minute := 0, second := 0, microsecond := 0 }) := by
  have h := (C4_range_date_suppression exFmt none
      { date := 5, hour := 10, minute := 30, second := 0, microsecond := 0 }
      { date := 5, hour := 11, minute := 0, second := 0, microsecond := 0 } (by decide)).1
  simpa using h

/-- A remote Outlook message as used by the legacy message list: only its
entryID identity matters for navigation. -/
structure Msg where
  entryID : String
  deriving DecidableEq, Repr

/-- The navigation gestures bound to script_moveByMessage (outlook.py lines
294-300). -/
def moveByMessageGestures : List String :=
  ["kb:downArrow", "kb:upArrow", "kb:home", "kb:end", "kb:delete"]

/-- The observable outcome of one run of script_moveByMessage: the
curMessageItem association afterwards (the message stored on the synthesized
MessageItem), how many gainFocus events were executed, and on which
synthesized item. -/
structure MoveByMessageResult where
  curMessageItem : Option Msg
  focusEventCount : Nat
  focusEventTarget : Option Msg
  deriving DecidableEq, Repr

/-- The parent object a MessageItem is constructed against: only its window
handle is consumed by the constructor. -/
structure ParentObj where
  windowHandle : Nat
  deriving DecidableEq, Repr

/-- A constructed MessageItem: the stored remote message, the stored parent
and the window handle passed on to the Window initializer. -/
structure MessageItemData where
  msg : Msg
  parent : ParentObj
  windowHandle : Nat
  deriving DecidableEq, Repr

/-- Embedding of MessageItem.init (outlook.py lines 308-315).  Each argument
defaults to None in the source; when parent or msg is missing the raise
statement itself fails with a NameError because the referenced exception
class name is misspelled and undefined, so the construction call raises
either way and is fatal.  Otherwise msg and parent are stored and the window
handle falls back to the parent window handle. -/
def MessageItem_init (windowHandle : Option Nat) (parent : Option ParentObj)
    (msg : Option Msg) : Except String MessageItemData :=
  match parent, msg with
  | some p, some m =>
    Except.ok { msg := m, parent := p, windowHandle := windowHandle.getD p.windowHandle }
  | _, _ =>
    Except.error ("NameError: name ArguementError is not defined")

/-- The construction call MessageItem(self, msg) as written at outlook.py
lines 271 and 288.  The call is positional against the parameter list
(windowHandle=None, parent=None, msg=None) of MessageItem.init, so the list
object binds to windowHandle, the remote message binds to parent, and the
msg parameter keeps its None default; the argument check in MessageItem.init
therefore fires independently of the supplied values, and the raise statement
itself raises NameError because the named exception class ArguementError is
undefined.  No MessageItem is ever produced at these call sites. -/
def MessageItem_call_positional (_parentArg : Msg) : Except String MessageItemData :=
  Except.error ("NameError: name ArguementError is not defined")

/-- Embedding of MessageList_pre2003.script_moveByMessage (outlook.py lines
276-292).  `cur` is the message held by the existing curMessageItem, if any;
`selAfter` is the remote selection re-queried after the gesture was
forwarded, with none standing for any failure to read it (treated as no
selection, silently).  With a readable selection the script evaluates
MessageItem(self, msg); that construction is not inside the try block, so
its exception escapes the script and the identity comparison, the
curMessageItem update and the focus-event dispatch below it never run. -/
def script_moveByMessage (cur : Option Msg) (selAfter : Option Msg) :
    Except String MoveByMessageResult :=
  let oldEntryID : Option String := cur.map Msg.entryID
  match selAfter with
  | none =>
    Except.ok { curMessageItem := cur, focusEventCount := 0, focusEventTarget := none }
  | some msg =>
    match MessageItem_call_positional msg with
    | Except.error e => Except.error e
    | Except.ok messageItem =>
      let newEntryID := messageItem.msg.entryID
      if some newEntryID ≠ oldEntryID then
        Except.ok { curMessageItem := some messageItem.msg, focusEventCount := 1,
                    focusEventTarget := some messageItem.msg }
      else
        Except.ok { curMessageItem := cur, focusEventCount := 0, focusEventTarget := none }

/-- Claim C5 (code bug): for any bound navigation gesture, whenever a
selection is readable after the gesture was forwarded, the script raises
NameError out of the MessageItem construction before any identity is
compared, so curMessageItem is never replaced and no focus event is ever
executed, contrary to the claimed update-and-single-event behavior on an
identity change; with no readable selection the script completes without an
event and without changing curMessageItem. -/
theorem C5_moveByMessage_raises (g : String) (hg : g ∈ moveByMessageGestures)
    (cur : Option Msg) (m : Msg) :
    script_moveByMessage cur (some m) =
      Except.error ("NameError: name ArguementError is not defined") ∧
    script_moveByMessage cur none =
      Except.ok { curMessageItem := cur, focusEventCount := 0,
                  focusEventTarget := none } :=
  ⟨rfl, rfl⟩

/-- Witness for the C5 theorem at the down-arrow gesture with no previous
item and a concrete changed selection: even then the script raises instead of
executing a focus event. -/
theorem C5_moveByMessage_raises_witness :
    script_moveByMessage none (some { entryID := "id1" }) =
      Except.error ("NameError: name ArguementError is not defined") :=
  (C5_moveByMessage_raises ("kb:downArrow") (by decide) none { entryID := "id1" }).1

/-- The remote properties UIAGridRow._get_name reads from the currently
selected item, each as the raw outcome of the guarded COM read: none means
the read raised COMError and the call site substitutes its default
(unread false, message class None, flag icon 0, zero attachments, normal
importance 1). -/
structure RemoteSelection where
  unread : Option Bool
  messageClass : Option String
  flagIcon : Option Nat
  attachmentCount : Option Nat
  importance : Option Nat
  deriving DecidableEq, Repr

/-- The node-side inputs of UIAGridRow._get_name: the expanded or collapsed
state of the row and the cached UI-automation value string the modern branch
parses. -/
structure UIAGridRowNode where
  expanded : Bool
  collapsed : Bool
  value : String
  deriving DecidableEq, Repr

/-- Splitting a character list at every occurrence of a separator character,
keeping empty groups, the way the Python split method with an explicit
separator does. -/
def splitChars (sep : Char) : List Char → List (List Char)
  | [] => [[]]
  | c :: cs =>
    match splitChars sep cs with
    | [] => [[c]]
    | g :: gs => if c = sep then [] :: g :: gs else (c :: g) :: gs

/-- The Python string split on a single-space separator, as used on the
grid-row value string. -/
def pySplitOnSpace (s : String) : List String :=
  (splitChars (' ') s.data).map (fun l => String.mk l)

/-- Embedding of the modern value-string parsing inside UIAGridRow._get_name
(outlook.py lines 482-491): split the value on spaces; keep the trailing
read/unread token only when the message is unread; start after
max(1, count - 2) tokens when the message class is one of the silent classes,
otherwise from the first token. -/
def gridRowValueTokens (unread : Bool) (messageClass : String) (value : String) :
    List String :=
  let valueParts := pySplitOnSpace value
  let valueCount := valueParts.length
  let lastPart := if unread then valueCount else valueCount - 1
  let firstPart :=
    if messageClass ∈ silentMessageClasses then max 1 (valueCount - 2) else 0
  (valueParts.take lastPart).drop firstPart

/-- Embedding of the selection-derived part of UIAGridRow._get_name
(outlook.py lines 431-491), up to but not including the enumeration of the
cached text children.  The expansion state label comes first; with no
readable selection nothing else is appended; otherwise the flag label, the
attachment label, the importance label and then the version-dependent tokens
are appended in this order, each guarded property read falling back to its
default on failure. -/
def UIAGridRow_nameTokens (outlookVersion : Nat) (node : UIAGridRowNode)
    (sel : Option RemoteSelection) : List String :=
  let textList : List String :=
    if node.expanded then [("expanded")]
    else if node.collapsed then [("collapsed")]
    else []
  match sel with
  | none => textList
  | some selection =>
    let unread := match selection.unread with | some b => b | none => false
    let messageClass := selection.messageClass
    let flagIcon := match selection.flagIcon with | some n => n | none => 0
    let textList :=
      match oleFlagIconLabels flagIcon with
      | some l => textList ++ [l]
      | none => textList
    let attachmentCount :=
      match selection.attachmentCount with | some n => n | none => 0
    let textList :=
      if attachmentCount > 0 then textList ++ [("has attachment")] else textList
    let importance := match selection.importance with | some n => n | none => 1
    let textList :=
      match importanceLabels importance with
      | some l => textList ++ [l]
      | none => textList
    if outlookVersion < 15 then
      let textList := if unread then textList ++ [("unread")] else textList
      if messageClass = some ("IPM.Schedule.Meeting.Request") then
        textList ++ [("meeting request")]
      else textList
    else
      match messageClass with
      | none => textList
      | some mc => textList ++ gridRowValueTokens unread mc node.value

/-- The expansion state labels appended first. -/
def gridRowStateTokens (node : UIAGridRowNode) : List String :=
  if node.expanded then [("expanded")]
  else if node.collapsed then [("collapsed")]
  else []

/-- The version-dependent trailing tokens of the grid-row name: before
version 15 the unread label and the meeting-request label, from version 15 on
the parsed value-string tokens when the message class is known. -/
def gridRowTrailingTokens (outlookVersion : Nat) (node : UIAGridRowNode)
    (selection : RemoteSelection) : List String :=
  let unread := match selection.unread with | some b => b | none => false
  if outlookVersion < 15 then
    (if unread then [("unread")] else []) ++
    (if selection.messageClass = some ("IPM.Schedule.Meeting.Request") then
      [("meeting request")] else [])
  else
    match selection.messageClass with
    | none => []
    | some mc => gridRowValueTokens unread mc node.value

/-- Claim C6: for any subset of failing property reads the selection-derived
labels are appended in the fixed order state label, flag label, attachment
label, importance label, version-dependent trailing tokens; the flag label is
taken from the six-entry lookup and omitted for unknown values, the
attachment label appears exactly when the defaulted count is positive, the
importance label appears only for high (2) or low (0) and never for the
normal default, and each failed read contributes nothing while the remaining
labels keep their relative order. -/
theorem C6_gridrow_label_order (v : Nat) (node : UIAGridRowNode)
    (selection : RemoteSelection) :
    UIAGridRow_nameTokens v node (some selection) =
      gridRowStateTokens node
      ++ (oleFlagIconLabels (match selection.flagIcon with
            | some n => n | none => 0)).toList
      ++ (if (match selection.attachmentCount with | some n => n | none => 0) > 0
          then [("has attachment")] else [])
      ++ (importanceLabels (match selection.importance with
            | some n => n | none => 1)).toList
      ++ gridRowTrailingTokens v node selection ∧
    (selection.flagIcon = none →
      (oleFlagIconLabels (match selection.flagIcon with
        | some n => n | none => 0)).toList = []) ∧
    (∀ k, selection.flagIcon = some k → 7 ≤ k →
      (oleFlagIconLabels (match selection.flagIcon with
        | some n => n | none => 0)).toList = []) ∧
    (selection.attachmentCount = none →
      (if (match selection.attachmentCount with | some n => n | none => 0) > 0
        then [("has attachment")] else ([] : List String)) = []) ∧
    (selection.importance = none →
      (importanceLabels (match selection.importance with
        | some n => n | none => 1)).toList = []) ∧
    (selection.importance = some 1 →
      (importanceLabels (match selection.importance with
        | some n => n | none => 1)).toList = []) ∧
    (15 ≤ v → selection.messageClass = none →
      gridRowTrailingTokens v node selection = []) := by
  refine ⟨?_, ?_, ?_, ?_, ?_, ?_, ?_⟩
  · unfold UIAGridRow_nameTokens gridRowStateTokens gridRowTrailingTokens
    rcases selection with ⟨u, mc, fi, ac, im⟩
    simp only []
    by_cases hv : v < 15
    · simp only [hv, if_true]
      cases h1 : oleFlagIconLabels (match fi with | some n => n | none => 0) <;>
      cases him : importanceLabels (match im with | some n => n | none => 1) <;>
      by_cases ha : (match ac with | some n => n | none => 0) > 0 <;>
      by_cases hu : (match u with | some b => b | none => false) = true <;>
      by_cases hmc : mc = some ("IPM.Schedule.Meeting.Request") <;>
      simp [h1, him, ha, hu, hmc, Option.toList]
    · simp only [hv, if_false]
      cases h1 : oleFlagIconLabels (match fi with | some n => n | none => 0) <;>
      cases him : importanceLabels (match im with | some n => n | none => 1) <;>
      by_cases ha : (match ac with | some n => n | none => 0) > 0 <;>
      cases hmc : mc <;>
      simp [h1, him, ha, hmc, Option.toList]
  · intro h
    simp [h, oleFlagIconLabels]
  · intro k hk h7
    rcases selection with ⟨u, mc, fi, ac, im⟩
    simp only at hk
    subst hk
    obtain ⟨n, rfl⟩ : ∃ n, k = n + 7 := ⟨k - 7, by omega⟩
    rfl
  · intro h
    simp [h]
  · intro h
    simp [h, importanceLabels]
  · intro h
    simp [h, importanceLabels]
  · intro hv h
    unfold gridRowTrailingTokens
    have : ¬ v < 15 := by omega
    simp [h, this]

/-- Witness for the C6 theorem: with every property read failing and a modern
version, every selection-derived label is omitted. -/
theorem C6_gridrow_label_order_witness :
    UIAGridRow_nameTokens 15 { expanded := false, collapsed := false, value := "" }
        (some { unread := none, messageClass := none, flagIcon := none,
                attachmentCount := none, importance := none }) = [] ∧
    gridRowTrailingTokens 15 { expanded := false, collapsed := false, value := "" }
        { unread := none, messageClass := none, flagIcon := none,
          attachmentCount := none, importance := none } = [] :=
  ⟨((C6_gridrow_label_order 15
      { expanded := false, collapsed := false, value := "" }
      { unread := none, messageClass := none, flagIcon := none,
        attachmentCount := none, importance := none }).1).trans (by decide),
   (C6_gridrow_label_order 15
      { expanded := false, collapsed := false, value := "" }
      { unread := none, messageClass := none, flagIcon := none,
        attachmentCount := none, importance := none }).2.2.2.2.2.2 (by omega) rfl⟩

/-- Claim C7 counterexample: a four-token value with a silent message class
and the unread flag set keeps only the last two tokens, whereas stripping
exactly the single leading type token would keep the last three. -/
theorem C7_counterexample :
    gridRowValueTokens true ("IPM.Note") ("A B C D") = [("C"), ("D")] ∧
    gridRowValueTokens true ("IPM.Note") ("A B C D") ≠ [("B"), ("C"), ("D")] := by
  constructor
  · decide
  · decide

/-- Claim C7 (amended): the token slice keeps the trailing read token exactly
when the message is unread, and for a silent message class the slice starts
after max(1, tokenCount - 2) tokens, which is the single leading type token
only when the value has at most three tokens. -/
theorem C7_value_token_parsing (unread : Bool) (messageClass value : String) :
    (gridRowValueTokens unread messageClass value =
      ((pySplitOnSpace value).take
        (if unread then (pySplitOnSpace value).length
         else (pySplitOnSpace value).length - 1)).drop
        (if messageClass ∈ silentMessageClasses
         then max 1 ((pySplitOnSpace value).length - 2) else 0)) ∧
    ((pySplitOnSpace value).length ≤ 3 → messageClass ∈ silentMessageClasses →
      max 1 ((pySplitOnSpace value).length - 2) = 1) := by
  constructor
  · rfl
  · intro h3 _
    omega

/-- Witness for the C7 theorem at a three-token value. -/
theorem C7_value_token_parsing_witness :
    max 1 ((pySplitOnSpace ("A B C")).length - 2) = 1 :=
  (C7_value_token_parsing false ("IPM.Note") ("A B C")).2 (by decide) (by decide)

/-- The accessible roles the classification engine inspects. -/
inductive Role
  | button | tableCell | checkBox | listItem | editableText | pane
  | menuBar | menuItem | treeView | treeViewItem | list | unknown
  | dataItem | other (n : Nat)
  deriving DecidableEq, Repr

/-- The overlay classes the engine inserts or removes. -/
inductive OverlayClass
  | UIAGridRow | Dialog | OutlookWordDocument | WordDocument
  | DatePickerButton | DatePickerCell | REListBox20W_CheckBox
  | AutoCompleteListItem | AddressBookEntry | MessageList_pre2003
  | SuperGridClient2010 | CalendarView | generic (n : Nat)
  deriving DecidableEq, Repr

/-- The static signature of a raw accessible node consumed by
chooseNVDAObjectOverlayClasses: which backend the node belongs to, its cached
UI-automation class name, the window class name of the parent window returned
by getAncestor (none when there is no parent window), its role, window class
name, control id, and the event source identifiers. -/
structure NodeInfo where
  isUIA : Bool
  isIAccessible : Bool
  cachedClassName : Option String
  parentWindowClassName : Option String
  role : Role
  windowClassName : String
  windowControlID : Int
  eventObjectID : Int
  eventChildID : Int
  deriving DecidableEq, Repr

/-- winUser.OBJID_CLIENT. -/
def OBJID_CLIENT : Int := -4

/-- The part of chooseNVDAObjectOverlayClasses from the WordDocument check
onwards (outlook.py lines 180-205): the date-picker/checkbox/autocomplete
chain, the address-book match that returns early, the legacy or modern
message-list match gated on the version, and the calendar-view match. -/
def chooseOverlayTail (outlookVersion : Nat) (obj : NodeInfo)
    (clsList0 : List OverlayClass) : List OverlayClass :=
  let clsList :=
    if OverlayClass.WordDocument ∈ clsList0 then
      OverlayClass.OutlookWordDocument :: clsList0
    else clsList0
  let clsList :=
    if obj.windowControlID = 4352 ∧ obj.role = Role.button then
      OverlayClass.DatePickerButton :: clsList
    else if obj.role = Role.tableCell ∧ obj.windowClassName = "rctrl_renwnd32" then
      OverlayClass.DatePickerCell :: clsList
    else if obj.windowClassName = "REListBox20W" ∧ obj.role = Role.checkBox then
      OverlayClass.REListBox20W_CheckBox :: clsList
    else if obj.role = Role.listItem ∧
        (("REListBox").isPrefixOf obj.windowClassName ∨
         ("NetUIHWND").isPrefixOf obj.windowClassName) then
      OverlayClass.AutoCompleteListItem :: clsList
    else clsList
  if obj.role = Role.listItem ∧ obj.windowClassName = "OUTEXVLB" then
    OverlayClass.AddressBookEntry :: clsList
  else
    let clsList :=
      if (obj.windowClassName = "SUPERGRID" ∧ obj.windowControlID = 4704) ∨
          (obj.windowClassName = "rctrl_renwnd32" ∧ obj.windowControlID = 109) then
        if outlookVersion ≠ 0 ∧ outlookVersion ≤ 9 then
          OverlayClass.MessageList_pre2003 :: clsList
        else if obj.eventObjectID = OBJID_CLIENT ∧ obj.eventChildID = 0 then
          OverlayClass.SuperGridClient2010 :: clsList
        else clsList
      else clsList
    if (obj.windowClassName = "AfxWndW" ∧ obj.windowControlID = 109) ∨
        obj.windowClassName = "WeekViewWnd" ∨ obj.windowClassName = "DayViewWnd" then
      OverlayClass.CalendarView :: clsList
    else clsList

/-- Embedding of AppModule.chooseNVDAObjectOverlayClasses (outlook.py lines
168-205): a UIA node whose cached class is a known row surface gets the
grid-row overlay first; all remaining rules apply only to IAccessible nodes;
a node carrying the Dialog behavior whose parent window class is AfxWndW has
the Dialog behavior removed; the rest of the rules run in chooseOverlayTail. -/
def chooseNVDAObjectOverlayClasses (outlookVersion : Nat) (obj : NodeInfo)
    (clsList0 : List OverlayClass) : List OverlayClass :=
  let clsList :=
    if obj.isUIA ∧ (obj.cachedClassName = some ("LeafRow") ∨
        obj.cachedClassName = some ("ThreadItem") ∨
        obj.cachedClassName = some ("ThreadHeader")) then
      OverlayClass.UIAGridRow :: clsList0
    else clsList0
  if ¬ obj.isIAccessible then clsList
  else
    let clsList :=
      if OverlayClass.Dialog ∈ clsList ∧ obj.parentWindowClassName = some ("AfxWndW") then
        clsList.erase OverlayClass.Dialog
      else clsList
    chooseOverlayTail outlookVersion obj clsList

theorem dialog_mem_chooseOverlayTail (v : Nat) (obj : NodeInfo)
    (l : List OverlayClass) :
    OverlayClass.Dialog ∈ chooseOverlayTail v obj l ↔ OverlayClass.Dialog ∈ l := by
  unfold chooseOverlayTail
  repeat' split
  all_goals simp_all

/-- Claim C8: an IAccessible node carrying the Dialog behavior (once) whose
parent window class is AfxWndW never keeps the Dialog behavior in its final
overlay list, whatever its other signature fields and whatever the version. -/
theorem C8_embedded_dialog_suppression (v : Nat) (obj : NodeInfo)
    (clsList : List OverlayClass)
    (hIA : obj.isIAccessible = true)
    (hD : OverlayClass.Dialog ∈ clsList)
    (hOnce : clsList.count OverlayClass.Dialog ≤ 1)
    (hP : obj.parentWindowClassName = some ("AfxWndW")) :
    OverlayClass.Dialog ∉ chooseNVDAObjectOverlayClasses v obj clsList := by
  unfold chooseNVDAObjectOverlayClasses
  have hIA2 : ¬ ¬ obj.isIAccessible = true := by simp [hIA]
  by_cases hUIA : obj.isUIA = true ∧ (obj.cachedClassName = some ("LeafRow") ∨
      obj.cachedClassName = some ("ThreadItem") ∨
      obj.cachedClassName = some ("ThreadHeader"))
  all_goals {
    first
      | rw [if_pos hUIA, if_neg hIA2]
      | rw [if_neg hUIA, if_neg hIA2]
    first
      | (rw [if_pos (And.intro (List.mem_cons_of_mem _ hD) hP)]
         rw [dialog_mem_chooseOverlayTail]
         intro hmem
         have hcount : (OverlayClass.UIAGridRow :: clsList).count OverlayClass.Dialog ≤ 1 := by
           simpa [List.count_cons] using hOnce
         have := List.count_erase_self OverlayClass.Dialog
           (OverlayClass.UIAGridRow :: clsList)
         have hzero : ((OverlayClass.UIAGridRow :: clsList).erase
             OverlayClass.Dialog).count OverlayClass.Dialog = 0 := by
           have hpos : 1 ≤ (OverlayClass.UIAGridRow :: clsList).count OverlayClass.Dialog :=
             List.count_pos_iff_mem.mpr (List.mem_cons_of_mem _ hD)
           omega
         exact absurd (List.count_pos_iff_mem.mpr hmem) (by omega))
      | (rw [if_pos (And.intro hD hP)]
         rw [dialog_mem_chooseOverlayTail]
         intro hmem
         have hzero : (clsList.erase OverlayClass.Dialog).count OverlayClass.Dialog = 0 := by
           have := List.count_erase_self OverlayClass.Dialog clsList
           have hpos : 1 ≤ clsList.count OverlayClass.Dialog :=
             List.count_pos_iff_mem.mpr hD
           omega
         exact absurd (List.count_pos_iff_mem.mpr hmem) (by omega))
  }

/-- Witness for the C8 theorem: a concrete dialog node embedded in an AfxWndW
parent window loses the Dialog behavior. -/
theorem C8_embedded_dialog_suppression_witness :
    OverlayClass.Dialog ∉ chooseNVDAObjectOverlayClasses 16
      { isUIA := false, isIAccessible := true, cachedClassName := none,
        parentWindowClassName := some ("AfxWndW"), role := Role.pane,
        windowClassName := "X", windowControlID := 1, eventObjectID := 0,
        eventChildID := 0 }
      [OverlayClass.Dialog, OverlayClass.generic 0] :=
  C8_embedded_dialog_suppression 16
    { isUIA := false, isIAccessible := true, cachedClassName := none,
      parentWindowClassName := some ("AfxWndW"), role := Role.pane,
      windowClassName := "X", windowControlID := 1, eventObjectID := 0,
      eventChildID := 0 }
    [OverlayClass.Dialog, OverlayClass.generic 0]
    rfl (by decide) (by decide) rfl

/-- Claim C9: construction with a missing parent or msg argument raises and
never yields an object; construction with both succeeds and stores msg and
parent on the new object. -/
theorem C9_messageItem_construction (wh : Option Nat) (parent : Option ParentObj)
    (msg : Option Msg) :
    (parent = none ∨ msg = none →
      ∀ d : MessageItemData, MessageItem_init wh parent msg ≠ Except.ok d) ∧
    (∀ p m, parent = some p → msg = some m →
      MessageItem_init wh parent msg =
        Except.ok { msg := m, parent := p, windowHandle := wh.getD p.windowHandle }) := by
  constructor
  · intro h d
    rcases h with h | h <;> subst h <;> cases wh <;>
      first
        | (cases parent <;> simp [MessageItem_init])
        | (cases msg <;> simp [MessageItem_init])
  · intro p m hp hm
    subst hp
    subst hm
    rfl

/-- Witness for the C9 theorem: constructing with both arguments stores them,
and constructing without the msg argument is not a successful construction. -/
theorem C9_messageItem_construction_witness :
    MessageItem_init none (some { windowHandle := 42 }) (some { entryID := "e" }) =
      Except.ok { msg := { entryID := "e" }, parent := { windowHandle := 42 },
                  windowHandle := 42 } ∧
    MessageItem_init (some 3) (some { windowHandle := 42 }) none ≠
      Except.ok { msg := { entryID := "e" }, parent := { windowHandle := 42 },
                  windowHandle := 3 } :=
  ⟨(C9_messageItem_construction none (some { windowHandle := 42 })
      (some { entryID := "e" })).2 { windowHandle := 42 } { entryID := "e" } rfl rfl,
   (C9_messageItem_construction (some 3) (some { windowHandle := 42 }) none).1
      (Or.inr rfl) _⟩

/-- The native object-model handle as seen by _get_outlookVersion: only its
version string is consumed. -/
structure NativeOmHandle where
  version : String
  deriving DecidableEq, Repr

/-- The first dot-separated component of a version string, parsed the way the
Python int constructor would (none when it raises). -/
def versionMajor (s : String) : Option Nat :=
  ((splitChars ('.') s.data).map (fun l => String.mk l)).headD ("") |>.toNat?

/-- Embedding of AppModule._get_outlookVersion (outlook.py lines 137-143):
with no native object model the version is 0, otherwise the integer value of
the major component of the version string (none modelling the int constructor
raising on a malformed string). -/
def outlookVersionOf (nativeOm : Option NativeOmHandle) : Option Nat :=
  match nativeOm with
  | none => some 0
  | some om => versionMajor om.version

/-- The two paths CalendarView.reportFocus can take (outlook.py lines
391-424): the object-model inspection path, or the generic value-change
fallback taken when the version precondition or the session is missing. -/
inductive ReportFocusPath
  | modern
  | fallbackValueChange
  deriving DecidableEq, Repr

/-- The branch decision at the top of CalendarView.reportFocus. -/
def calendarViewReportFocusPath (outlookVersion : Nat)
    (nativeOm : Option NativeOmHandle) : ReportFocusPath :=
  if 13 ≤ outlookVersion ∧ nativeOm.isSome then ReportFocusPath.modern
  else ReportFocusPath.fallbackValueChange

/-- The two paths SuperGridClient2010.event_gainFocus can take (outlook.py
lines 229-243): base focus handling, or the UIA redirection attempt. -/
inductive GainFocusPath
  | base
  | uiaRedirect
  deriving DecidableEq, Repr

/-- The branch decision at the top of SuperGridClient2010.event_gainFocus. -/
def superGridGainFocusPath (outlookVersion : Nat) (uiaHandlerAvailable : Bool) :
    GainFocusPath :=
  if outlookVersion < 14 ∨ ¬ uiaHandlerAvailable then GainFocusPath.base
  else GainFocusPath.uiaRedirect

/-- Claim C10: with no native object model the derived version is exactly 0,
so CalendarView.reportFocus takes the generic value-change fallback and
SuperGridClient2010.event_gainFocus takes the base focus handling, whatever
the UIA handler availability. -/
theorem C10_version_gated_fallbacks (uiaHandlerAvailable : Bool) :
    outlookVersionOf none = some 0 ∧
    (∀ v, outlookVersionOf none = some v →
      calendarViewReportFocusPath v none = ReportFocusPath.fallbackValueChange ∧
      superGridGainFocusPath v uiaHandlerAvailable = GainFocusPath.base) := by
  refine ⟨rfl, ?_⟩
  intro v hv
  have : v = 0 := by
    simpa [outlookVersionOf] using hv.symm
  subst this
  constructor
  · rfl
  · cases uiaHandlerAvailable <;> rfl

/-- Witness for the C10 theorem at version 0. -/
theorem C10_version_gated_fallbacks_witness :
    calendarViewReportFocusPath 0 none = ReportFocusPath.fallbackValueChange ∧
    superGridGainFocusPath 0 true = GainFocusPath.base :=
  (C10_version_gated_fallbacks true).2 0 rfl
